import Mathlib

/-!
Verification of the i18n language-context subsystem of the ds-payground
design-system repository: the language registry (`src/lib/i18n/types.ts`),
the provider (`src/lib/i18n/LanguageProvider.tsx`) and the accessor hook
(`src/lib/i18n/useLanguage.ts`), shallowly embedded as pure Lean functions.
-/

namespace I18n

/-- The closed set of language codes, from `types.ts`:
`export type Language = typeof SUPPORTED_LANGUAGES[number]['code']`,
i.e. the union type of the codes en, ja, zh-tw. -/
inductive Language where
  | en
  | ja
  | zhTw
deriving DecidableEq

/-- The string form of a `Language` value: in TypeScript the `Language`
type IS the string literal union, so `code` recovers the runtime string. -/
def Language.code : Language → String
  | .en => "en"
  | .ja => "ja"
  | .zhTw => "zh-tw"

/-- The registry constant `SUPPORTED_LANGUAGES` from `types.ts`: the ordered
list of (code, display name) pairs. -/
def SUPPORTED_LANGUAGES : List (String × String) :=
  [("en", "English"), ("ja", "Japanese"), ("zh-tw", "Traditional Chinese")]

/-- The registry's set of valid codes, derived from `SUPPORTED_LANGUAGES`
exactly as the `Language` union type is derived in `types.ts`. -/
def validCodes : List String :=
  SUPPORTED_LANGUAGES.map Prod.fst

/-- The constant `LANGUAGE_NAMES` from `LanguageProvider.tsx`: total map from
codes to display names used by the ARIA live region. -/
def LANGUAGE_NAMES : Language → String
  | .en => "English"
  | .ja => "Japanese"
  | .zhTw => "Traditional Chinese"

/-- An exception thrown by a consumer-supplied `onChange` callback. -/
structure CallbackError where
  message : String
deriving DecidableEq

/-- Events observable during one `setLang` call of the provider, in order:
the React state update (`setLangState(newLang)`) and the invocation of the
consumer callback (`onChange?.(newLang)`). -/
inductive SetLangEvent where
  | stateUpdate : Language → SetLangEvent
  | onChangeCall : Language → SetLangEvent
deriving DecidableEq

/-- The observable outcome of one call to a `setLang` function: the state it
leaves behind (`none` = it mutates no provider state), the ordered event
trace, the console warnings it emits, and what escapes to its caller. -/
structure SetLangOutcome where
  newState : Option Language
  trace : List SetLangEvent
  warnings : List String
  thrown : Except CallbackError Unit

/-- The onChange invocations contained in an outcome's trace, in order. -/
def onChangeCalls (o : SetLangOutcome) : List Language :=
  o.trace.filterMap fun e =>
    match e with
    | .onChangeCall l => some l
    | .stateUpdate _ => none

/-- The `setLang` closure created by `LanguageProvider` (lines 67-70 of
`LanguageProvider.tsx`): it calls `setLangState(newLang)` and then
`onChange?.(newLang)`. There is no validation of `newLang` and no
try/catch: whatever the callback throws leaves `setLang` unhandled, but the
state update has already been issued before the callback runs. -/
def providerSetLang (onChange : Option (Language → Except CallbackError Unit))
    (newLang : Language) : SetLangOutcome :=
  { newState := some newLang
  , trace := SetLangEvent.stateUpdate newLang ::
      (match onChange with
       | none => []
       | some _ => [SetLangEvent.onChangeCall newLang])
  , warnings := []
  , thrown :=
      match onChange with
      | none => Except.ok ()
      | some cb => cb newLang }

/-- The provider's internal state: `const [lang, setLangState] = useState<Language>(defaultLang)`. -/
structure ProviderState where
  lang : Language
deriving DecidableEq

/-- Construction of the provider state: `defaultLang = 'en'` is the default
parameter value, so an omitted `defaultLang` initializes to en. -/
def initProvider (defaultLang : Option Language) : ProviderState :=
  ⟨defaultLang.getD Language.en⟩

/-- Applying a `setLang` outcome to the provider state: a scheduled state
update (if any) replaces `lang`; an outcome with no update leaves it. -/
def applySetLang (s : ProviderState) (o : SetLangOutcome) : ProviderState :=
  match o.newState with
  | none => s
  | some l => ⟨l⟩

/-- A provider session: mount with `defaultLang`, then perform the given
sequence of `setLang` calls; returns the resulting state. -/
def runProvider (defaultLang : Option Language)
    (onChange : Option (Language → Except CallbackError Unit))
    (calls : List Language) : ProviderState :=
  calls.foldl (fun s c => applySetLang s (providerSetLang onChange c)) (initProvider defaultLang)

/-- The context value `{ lang, setLang }` that `LanguageProvider` provides to
its descendants (`useMemo(() => ({ lang, setLang }), ...)`). -/
structure LanguageContextValue where
  lang : Language
  setLang : Language → SetLangOutcome

/-- The context value published by a provider in state `s`. -/
def providerContextValue (s : ProviderState)
    (onChange : Option (Language → Except CallbackError Unit)) : LanguageContextValue :=
  { lang := s.lang, setLang := providerSetLang onChange }

/-- The configuration error thrown by `useLanguage` in development mode. -/
structure ConfigurationError where
  message : String
deriving DecidableEq

/-- The message of the development-mode error thrown by `useLanguage.ts`,
built by the same string concatenation as the source. -/
def configErrorMessage : String :=
  "useLanguage must be used within a LanguageProvider. " ++
  "Wrap your app with <LanguageProvider> to enable multilingual typography. " ++
  "Example:\n\n" ++
  "  import \x7b LanguageProvider \x7d from \x27@your-org/design-system\x27\n\n" ++
  "  <LanguageProvider defaultLang=\"en\">\n" ++
  "    <YourApp />\n" ++
  "  </LanguageProvider>\n\n" ++
  "See documentation: https://github.com/your-org/design-system#internationalization"

/-- The warning emitted by the production fallback `setLang` in `useLanguage.ts`. -/
def fallbackWarning : String :=
  "setLang called outside LanguageProvider. Language changes will have no effect."

/-- The production fallback value returned by `useLanguage` when no provider
encloses the caller: English default, and a `setLang` that only warns. -/
def prodFallbackValue : LanguageContextValue :=
  { lang := Language.en
  , setLang := fun _ =>
      { newState := none
      , trace := []
      , warnings := [fallbackWarning]
      , thrown := Except.ok () } }

/-- The hook `useLanguage` from `useLanguage.ts`: reads the context; if it is
`undefined` (no enclosing provider) it throws in development mode
(`process.env.NODE_ENV !== 'production'`) and returns the fallback in
production; otherwise it returns the context value unchanged.
`nodeEnv` models `process.env.NODE_ENV`. -/
def useLanguage (nodeEnv : String) (context : Option LanguageContextValue) :
    Except ConfigurationError LanguageContextValue :=
  match context with
  | none =>
      if nodeEnv ≠ "production" then
        Except.error ⟨configErrorMessage⟩
      else
        Except.ok prodFallbackValue
  | some ctx => Except.ok ctx

/-- The language read off an accessor result, when it did not throw. -/
def accessLang (r : Except ConfigurationError LanguageContextValue) : Option Language :=
  match r with
  | .ok v => some v.lang
  | .error _ => none

/-- Rendered markup, enough structure for the provider's output: text nodes
and elements with a tag, an attribute list and children. -/
inductive Node where
  | text : String → Node
  | elem : String → List (String × String) → List Node → Node

/-- The value of an attribute on the root of a node, if present. -/
def Node.attrOf : Node → String → Option String
  | .elem _ attrs _, key => (attrs.find? (fun p => p.1 == key)).map Prod.snd
  | .text _, _ => none

/-- The text of the announcement region: the first child of the wrapper, when
it is a visually hidden (`sr-only`) polite (`aria-live="polite"`) region
holding a single text node. -/
def politeRegionText : Node → Option String
  | .elem _ _ (Node.elem _ attrs [Node.text s] :: _) =>
      if attrs.contains ("aria-live", "polite") && attrs.contains ("class", "sr-only") then
        some s
      else
        none
  | _ => none

/-- The ARIA live region rendered by `LanguageProvider` (lines 82-89): a
visually hidden polite status region whose text is the display name of the
current language. -/
def announcementRegion (lang : Language) : Node :=
  Node.elem "div"
    [("role", "status"), ("aria-live", "polite"), ("aria-atomic", "true"), ("class", "sr-only")]
    [Node.text (LANGUAGE_NAMES lang)]

/-- The markup returned by `LanguageProvider`'s render (lines 78-93): a `div`
carrying the current language as its `lang` attribute, containing the
announcement region followed by the children. (The context provider wrapper
contributes no markup of its own.) -/
def renderProvider (lang : Language) (children : List Node) : Node :=
  Node.elem "div" [("lang", lang.code)] (announcementRegion lang :: children)

/-- A rendering pass: ahead-of-time (server) or just-in-time (client). -/
inductive RenderPass where
  | server
  | client
deriving DecidableEq

/-- The provider's render as executed in a given pass. The source's render
body references only the props and the state (`lang`, `languageName`,
`children`) — no environment value, no effect hook, no post-mount mutation —
so the produced markup does not depend on the pass. -/
def renderProviderPass (_p : RenderPass) (lang : Language) (children : List Node) : Node :=
  renderProvider lang children

/-- Runtime (type-erased) provider state: at JavaScript runtime the `lang`
state cell holds whatever string was passed, TypeScript types being erased. -/
structure RawProviderState where
  lang : String
deriving DecidableEq

/-- Runtime (type-erased) semantics of the provider's `setLang` (lines 67-70
of `LanguageProvider.tsx`): the body performs no membership check of
`newLang` against the registry, so at runtime any string is stored; the
only thing that can be thrown is whatever `onChange` throws. -/
def setLangRaw (onChange : Option (String → Except CallbackError Unit))
    (newLang : String) (_s : RawProviderState) : RawProviderState × Except CallbackError Unit :=
  (⟨newLang⟩,
    match onChange with
    | none => Except.ok ()
    | some cb => cb newLang)

/-- A concrete consumer callback that always throws. -/
def throwingCb : Language → Except CallbackError Unit :=
  fun _ => Except.error ⟨"boom"⟩

/-- C1 counterexample: at runtime, calling the provider's `setLang` with the
code "fr", which is outside the registry's valid set, raises no error at all
(the only failure channel, the callback's, reports success) and mutates the
state from "en" to "fr" — so the claim that such a call raises a
`ValidationError` and leaves the state unchanged is false. -/
theorem setLang_invalid_code_counterexample :
    "fr" ∉ validCodes ∧
    (setLangRaw none "fr" ⟨"en"⟩).1 ≠ RawProviderState.mk "en" ∧
    (setLangRaw none "fr" ⟨"en"⟩).1 = RawProviderState.mk "fr" ∧
    (setLangRaw none "fr" ⟨"en"⟩).2 = Except.ok () :=
  ⟨by decide, by decide, rfl, rfl⟩

/-- C1 (amended): the provider's `setLang` performs no runtime validation:
called with any code outside the registry's valid set it raises no error and
updates the language state to that code (invalid codes are excluded only by
the static TypeScript type, which is erased at runtime). -/
theorem setLang_no_runtime_validation (c : String) (h : c ∉ validCodes)
    (cb : Option (String → Except CallbackError Unit)) (s : RawProviderState) :
    (setLangRaw cb c s).1.lang = c ∧ (setLangRaw none c s).2 = Except.ok () :=
  ⟨rfl, rfl⟩

/-- Witness for C1 (amended) at the concrete invalid code "fr". -/
theorem setLang_no_runtime_validation_witness :
    "fr" ∉ validCodes ∧
    ((setLangRaw none "fr" ⟨"en"⟩).1.lang = "fr" ∧
     (setLangRaw none "fr" ⟨"en"⟩).2 = Except.ok ()) :=
  ⟨by decide, setLang_no_runtime_validation "fr" (by decide) none ⟨"en"⟩⟩

/-- C2 counterexample: with the concrete always-throwing callback, the
exception escapes `setLang` to its caller (the call's thrown outcome is the
callback's error, not success), so the claim that a throwing `onChange` is
caught at the provider boundary and never propagated is false. -/
theorem onChange_error_contained_counterexample :
    (providerSetLang (some throwingCb) Language.ja).thrown = Except.error ⟨"boom"⟩ ∧
    (providerSetLang (some throwingCb) Language.ja).thrown ≠ Except.ok () :=
  ⟨rfl, fun hEq => Except.noConfusion hEq⟩

/-- C2 (amended): the provider's `setLang` wraps `onChange` in no try/catch:
whatever the callback throws propagates unchanged to the caller of `setLang`;
the state update, issued before the callback runs, still takes effect (the
new state is the new code regardless of the callback's outcome). -/
theorem onChange_error_propagates_state_updates
    (cb : Language → Except CallbackError Unit) (c : Language) :
    (providerSetLang (some cb) c).thrown = cb c ∧
    (providerSetLang (some cb) c).newState = some c :=
  ⟨rfl, rfl⟩

/-- C3: in development mode (NODE_ENV other than "production"), `useLanguage`
with no enclosing provider throws a configuration error whose message names
the missing `LanguageProvider` and contains the remediation instruction to
wrap the app in it. -/
theorem useLanguage_dev_no_provider_throws (nodeEnv : String) (h : nodeEnv ≠ "production") :
    useLanguage nodeEnv none = Except.error ⟨configErrorMessage⟩ ∧
    List.IsInfix ("LanguageProvider".data) (configErrorMessage.data) ∧
    List.IsInfix ("Wrap your app with <LanguageProvider>".data) (configErrorMessage.data) := by
  refine ⟨?_, by decide, by decide⟩
  simp only [useLanguage, if_pos h]

/-- Witness for C3 at the concrete mode "development". -/
theorem useLanguage_dev_no_provider_throws_witness :
    "development" ≠ "production" ∧
    (useLanguage "development" none = Except.error ⟨configErrorMessage⟩ ∧
     List.IsInfix ("LanguageProvider".data) (configErrorMessage.data) ∧
     List.IsInfix ("Wrap your app with <LanguageProvider>".data) (configErrorMessage.data)) :=
  ⟨by decide, useLanguage_dev_no_provider_throws "development" (by decide)⟩

/-- C4: in production mode, `useLanguage` with no enclosing provider returns
the English default together with a `setLang` that, for every argument,
mutates no state, throws nothing, and emits exactly the diagnostic warning of
the source; a subsequent access still observes the unchanged default. -/
theorem useLanguage_prod_no_provider_fallback (c : Language) :
    useLanguage "production" none = Except.ok prodFallbackValue ∧
    prodFallbackValue.lang = Language.en ∧
    (prodFallbackValue.setLang c).newState = none ∧
    (prodFallbackValue.setLang c).thrown = Except.ok () ∧
    (prodFallbackValue.setLang c).warnings = [fallbackWarning] ∧
    accessLang (useLanguage "production" none) = some Language.en :=
  ⟨rfl, rfl, rfl, rfl, rfl, rfl⟩

/-- C5: reads through the accessor reflect initialization and the latest
write: inside a provider mounted with `defaultLang = c` the accessor reads
`c` before any write, and after `setLang c2` it reads `c2` whatever the
initial `c1` was, in any mode and with any callback. -/
theorem access_reflects_init_and_latest_write (nodeEnv : String)
    (cb : Option (Language → Except CallbackError Unit)) (c c1 c2 : Language) :
    accessLang (useLanguage nodeEnv
      (some (providerContextValue (runProvider (some c) cb []) cb))) = some c ∧
    accessLang (useLanguage nodeEnv
      (some (providerContextValue (runProvider (some c1) cb [c2]) cb))) = some c2 :=
  ⟨rfl, rfl⟩

/-- C6: when the provider was constructed with an `onChange` callback, each
`setLang c` call produces the trace state-update-then-callback: `onChange` is
invoked exactly once, with argument `c`, after the state update — also when
`c` equals the current language, since the invocation does not consult the
current state at all. -/
theorem onChange_invoked_once_after_update (cb : Language → Except CallbackError Unit)
    (c : Language) (s : ProviderState) :
    (providerSetLang (some cb) c).trace =
      [SetLangEvent.stateUpdate c, SetLangEvent.onChangeCall c] ∧
    onChangeCalls (providerSetLang (some cb) c) = [c] ∧
    onChangeCalls (providerSetLang (some cb) s.lang) = [s.lang] ∧
    (providerSetLang (some cb) c).newState = some c :=
  ⟨rfl, rfl, rfl, rfl⟩

/-- C7: for every current language the provider renders a wrapper carrying
that language's code as its `lang` attribute and a visually hidden polite
region whose text is the registry's display name; concretely, mounting with
`defaultLang = ja` renders attribute "ja" and announcement "Japanese", and
after `setLang zh-tw` attribute "zh-tw" and announcement
"Traditional Chinese". -/
theorem render_carries_lang_and_announcement (c : Language) (children : List Node) :
    Node.attrOf (renderProvider c children) "lang" = some c.code ∧
    politeRegionText (renderProvider c children) = some (LANGUAGE_NAMES c) ∧
    Node.attrOf (renderProvider (runProvider (some Language.ja) none []).lang []) "lang" =
      some "ja" ∧
    politeRegionText (renderProvider (runProvider (some Language.ja) none []).lang []) =
      some "Japanese" ∧
    Node.attrOf (renderProvider (runProvider (some Language.ja) none [Language.zhTw]).lang [])
      "lang" = some "zh-tw" ∧
    politeRegionText (renderProvider (runProvider (some Language.ja) none [Language.zhTw]).lang
      []) = some "Traditional Chinese" :=
  ⟨rfl, rfl, rfl, rfl, rfl, rfl⟩

/-- C8: the provider's render is a deterministic function of props and state,
independent of the rendering pass: a server pass and a client pass on the
same inputs produce the same markup, and the `lang` attribute is already
present in the very first render (the one produced from the freshly
initialized state). -/
theorem render_pass_independent (p1 p2 : RenderPass) (d : Option Language)
    (c : Language) (children : List Node) :
    renderProviderPass p1 c children = renderProviderPass p2 c children ∧
    Node.attrOf (renderProviderPass p1 (initProvider d).lang children) "lang" =
      some (initProvider d).lang.code :=
  ⟨rfl, rfl⟩

/-- C9: in every state reachable by mounting a provider with a valid default
language and performing any sequence of (well-typed) `setLang` calls, the
current language's code — the value exposed as the `lang` attribute — is a
member of the registry's valid set. -/
theorem reachable_lang_in_registry (c0 : Language)
    (cb : Option (Language → Except CallbackError Unit)) (cs : List Language) :
    (runProvider (some c0) cb cs).lang.code ∈ validCodes := by
  cases h : (runProvider (some c0) cb cs).lang <;> decide

/-- C10: whenever a provider is present (the context read is non-empty),
`useLanguage` returns the provider's context value unchanged, and the mode
flag has no influence: two runs differing only in NODE_ENV return the same
value, so the mode branch is reachable only without a provider. -/
theorem provider_present_mode_independent (env1 env2 : String) (v : LanguageContextValue) :
    useLanguage env1 (some v) = Except.ok v ∧
    useLanguage env1 (some v) = useLanguage env2 (some v) :=
  ⟨rfl, rfl⟩

end I18n
